import Mathlib

/-!
Verification development for the llm_routing_server repository.

This file gives a shallow embedding, in Lean, of the core of the gateway:
the model registry and resolver (`app/services/llm_router.py`), the usage
ledger (`app/services/usage_tracker.py`) and the chat-completion route
(`app/routes/chat_routes.py`, `app/routes/admin_routes.py`), together with
theorems settling the specification claims about them.

Modelling conventions:
  - Python dictionaries read with `.get` become structures with `Option`
    fields; defaults are applied at the use site, exactly where the source
    applies them.
  - Python truthiness tests (`if x:`) on optional strings / ints are made
    explicit through `pyTruthyOptStr` / `pyTruthyOptInt`.
  - Timestamps are abstracted to `Nat` values that grow with wall-clock
    time; ISO-8601 string comparison on timestamps in SQL is order
    isomorphic to the numeric comparison used here.
  - SQL aggregates follow the SQLite semantics the code relies on:
    `SUM`/`AVG` over an empty set give NULL (`Option`), `LIMIT n` with a
    negative `n` places no bound on the result.
-/

set_option maxHeartbeats 1000000

namespace LlmGateway

/-- Python truthiness of an optional string: `None` and the empty string
are falsy, every other string is truthy. -/
def pyTruthyOptStr : Option String → Bool
  | none => false
  | some s => s != ""

/-- Python truthiness of an optional integer: `None` and `0` are falsy,
every other integer (including negative ones) is truthy. -/
def pyTruthyOptInt : Option Int → Bool
  | none => false
  | some v => v != 0

/-- Python `a or b` on optional strings: the left operand when truthy,
otherwise the right operand. -/
def pyOrStr (a b : Option String) : Option String :=
  if pyTruthyOptStr a then a else b

/-- Python `a or d` where `d` is a plain string default, as in
`model_name or "unknown"`. -/
def pyStrOrD (a : Option String) (d : String) : String :=
  match a with
  | none => d
  | some s => if s = "" then d else s

/-- Rendering of an optional string inside a Python f-string: `None`
prints as the four letters `None`. -/
def pyStrOfOpt : Option String → String
  | none => "None"
  | some s => s

/-- One entry of `available_models` in `LLMRouterService`: the raw model
configuration mapping read from the YAML catalog (`llm_router.py`,
`_load_model_configuration`).  Fields read with `.get` are `Option`s. -/
structure ModelCfg where
  name : Option String := none
  provider : Option String := none
  model_id : Option String := none
  fallbacks : List String := []
  timeout_seconds : Option Nat := none
  max_retries : Option Nat := none
  cache_enabled : Option Bool := none
  cache_ttl_seconds : Option Nat := none
  api_base : Option String := none
  api_key : Option String := none
  description : Option String := none
deriving DecidableEq

/-- The mutable state of `LLMRouterService` relevant to resolution:
`available_models` (a Python dict, modelled as an insertion-ordered
association list), `default_model_name` and `global_fallback_models`. -/
structure RouterState where
  available_models : List (String × ModelCfg) := []
  default_model_name : Option String := none
  global_fallback_models : List String := []
deriving DecidableEq

/-- Dict lookup `self.available_models[name]` / `name in self.available_models`. -/
def lookupModel (st : RouterState) (name : String) : Option ModelCfg :=
  st.available_models.lookup name

/-- `list(self.available_models.keys())` — the catalog model names in
insertion order. -/
def modelKeys (st : RouterState) : List String :=
  st.available_models.map Prod.fst

/-- The LiteLLM target id built for a model configuration: for the
`custom_openai` provider family the id is `openai/` prefixed to
`model_id` (an absent `model_id` renders as `None` under the f-string),
otherwise it is `model_id` unchanged (`llm_router.py` lines 136-140 and
152-154). -/
def litellmTargetId (cfg : ModelCfg) : Option String :=
  if cfg.provider = some "custom_openai" then
    some ("openai/" ++ pyStrOfOpt cfg.model_id)
  else
    cfg.model_id

/-- The substitution at the top of `_resolve_model_identifier`:
`if not requested_model: requested_model = self.default_model_name`. -/
def effectiveRequested (st : RouterState) (r : Option String) : Option String :=
  if pyTruthyOptStr r then r else st.default_model_name

/-- Resolution failure (`ValueError` in the source), carrying the
requested name and the list of available names. -/
inductive ResolveError where
  | modelNotFound (requested : Option String) (available : List String)
deriving DecidableEq

/-- `_resolve_model_identifier` (`llm_router.py` lines 115-142): substitute
the default for a falsy request, fail with the available names when the
name is not a catalog key, otherwise return the LiteLLM target id and the
model configuration. -/
def resolveModelIdentifier (st : RouterState) (r : Option String) :
    Except ResolveError (Option String × ModelCfg) :=
  match effectiveRequested st r with
  | none => .error (.modelNotFound none (modelKeys st))
  | some name =>
    match lookupModel st name with
    | none => .error (.modelNotFound (some name) (modelKeys st))
    | some cfg => .ok (litellmTargetId cfg, cfg)

/-- The entry-fallback pass of `_build_fallback_model_list` (lines
149-155): walk `fallbacks` in order and append the target id of every
name that resolves, with no de-duplication. -/
def entryFallbackIds (st : RouterState) (cfg : ModelCfg) : List (Option String) :=
  cfg.fallbacks.filterMap (fun n => (lookupModel st n).map litellmTargetId)

/-- The global-fallback pass of `_build_fallback_model_list` (lines
157-165): walk the global fallback names in order and append the target
id of every name that resolves, skipping ids already present in the
accumulated list. -/
def addGlobalFallbacks (st : RouterState) :
    List String → List (Option String) → List (Option String)
  | [], acc => acc
  | n :: ns, acc =>
    match lookupModel st n with
    | some gc =>
      let gid := litellmTargetId gc
      addGlobalFallbacks st ns (if gid ∈ acc then acc else acc ++ [gid])
    | none => addGlobalFallbacks st ns acc

/-- `_build_fallback_model_list` (`llm_router.py` lines 144-167). -/
def buildFallbackModelList (st : RouterState) (cfg : ModelCfg) : List (Option String) :=
  addGlobalFallbacks st st.global_fallback_models (entryFallbackIds st cfg)

/-- The subset of `GatewaySettings` (`app/config/settings.py`) read by the
services modelled here, with the defaults declared there. -/
structure GatewaySettings where
  cache_enabled : Bool := true
  cache_default_ttl_seconds : Nat := 3600
  request_logging_enabled : Bool := true
  default_timeout_seconds : Nat := 60
  default_max_retries : Nat := 2
deriving DecidableEq

/-- A parsed configuration document that is a YAML mapping: the three keys
`_load_model_configuration` reads from it, each through `.get` with the
default shown in the source. -/
structure ConfigDoc where
  models : List ModelCfg := []
  default_model : Option String := none
  global_fallbacks : List String := []
deriving DecidableEq

/-- The possible states of the configuration source seen by
`_load_model_configuration`: the file may be missing, the YAML text may
fail to parse, the text may parse to a document that is not a mapping
(a scalar, a sequence, or an empty document parsed as null — any value
without a `.get` method), or it may parse to a mapping. -/
inductive ConfigSource where
  | missing
  | unparseable
  | nonMapping
  | mapping (doc : ConfigDoc)
deriving DecidableEq

/-- The exception raised by a failed load, by source kind:
`FileNotFoundError`, a YAML parse error, or the `AttributeError` raised
by calling `.get` on a non-mapping parse result. -/
inductive ConfigError where
  | fileNotFound
  | yamlError
  | attributeError
deriving DecidableEq

/-- CPython dict insertion: an existing key keeps its position and gets
the new value, a new key is appended at the end. -/
def dictUpsert (k : String) (v : ModelCfg) :
    List (String × ModelCfg) → List (String × ModelCfg)
  | [] => [(k, v)]
  | (k', v') :: rest =>
    if k' = k then (k, v) :: rest else (k', v') :: dictUpsert k v rest

/-- The catalog-building loop of `_load_model_configuration` (lines
74-77): for each model mapping, read `name` and store the mapping under
it when the name is truthy. -/
def loadCatalog : List ModelCfg → List (String × ModelCfg) → List (String × ModelCfg)
  | [], acc => acc
  | mc :: rest, acc =>
    match mc.name with
    | some n => if n = "" then loadCatalog rest acc else loadCatalog rest (dictUpsert n mc acc)
    | none => loadCatalog rest acc

/-- `_load_model_configuration` (`llm_router.py` lines 65-85) as a
transition on the router state, returning the post-state together with
the raised exception, if any.  The mutation order of the source is kept:
the missing-file check and the YAML parse happen before any field of
`self` is touched, but `self.available_models = {}` (line 73) runs
before the document shape is exercised, so a non-mapping document raises
only after the live catalog has been cleared. -/
def loadModelConfiguration (src : ConfigSource) (st : RouterState) :
    RouterState × Option ConfigError :=
  match src with
  | .missing => (st, some .fileNotFound)
  | .unparseable => (st, some .yamlError)
  | .nonMapping => ({ st with available_models := [] }, some .attributeError)
  | .mapping doc =>
    ({ available_models := loadCatalog doc.models [],
       default_model_name := doc.default_model,
       global_fallback_models := doc.global_fallbacks }, none)

/-- The value `reload_configuration` returns on success:
`models_count` and `default_model`. -/
structure ReloadInfo where
  models_count : Nat
  default_model : Option String
deriving DecidableEq

/-- Outcome of `reload_configuration`: the router state afterwards, the
propagated exception if the load failed, and the status payload if it
succeeded. -/
structure ReloadResult where
  state : RouterState
  error : Option ConfigError
  info : Option ReloadInfo
deriving DecidableEq

/-- `reload_configuration` (`llm_router.py` lines 87-94): run
`_load_model_configuration` and report the new catalog size and default
model on success; an exception propagates to the caller. -/
def reloadConfiguration (src : ConfigSource) (st : RouterState) : ReloadResult :=
  match loadModelConfiguration src st with
  | (st', some e) => { state := st', error := some e, info := none }
  | (st', none) =>
    { state := st', error := none,
      info := some { models_count := st'.available_models.length,
                     default_model := st'.default_model_name } }

/-- One row of the `request_logs` table (`usage_tracker.py` lines 48-65).
`cached` is the stored INTEGER (0/1), `request_metadata` the stored TEXT
(a JSON document or NULL); `cost_usd` models the REAL column, which
round-trips the inserted value exactly. -/
structure DbRow where
  id : Nat
  timestamp : Nat
  api_key_hash : Option String := none
  model_name : String
  provider_model : Option String := none
  prompt_tokens : Int := 0
  completion_tokens : Int := 0
  total_tokens : Int := 0
  cost_usd : Option Rat := none
  latency_ms : Int := 0
  status_code : Int := 200
  cached : Nat := 0
  error_message : Option String := none
  request_metadata : Option String := none
deriving DecidableEq

/-- The keyword arguments of `log_request` (`usage_tracker.py` lines
84-98) with the defaults declared there.  `model_name` is typed `str` in
the source but callers on the streaming path can pass `None` through it,
so it is optional here. -/
structure LogArgs where
  model_name : Option String
  prompt_tokens : Int := 0
  completion_tokens : Int := 0
  total_tokens : Int := 0
  cost_usd : Option Rat := none
  latency_ms : Int := 0
  status_code : Int := 200
  cached : Bool := false
  api_key_hash : Option String := none
  provider_model : Option String := none
  error_message : Option String := none
  request_metadata : Option (List (String × String)) := none
deriving DecidableEq

/-- A deterministic model of `json.dumps` on a string-to-string mapping
(metadata values are abstracted to strings). -/
def jsonDumps (m : List (String × String)) : String :=
  "\x7b" ++ String.intercalate ", " (m.map (fun p => "\"" ++ p.1 ++ "\": \"" ++ p.2 ++ "\"")) ++ "\x7d"

/-- The metadata column value computed by `log_request` (line 127):
`json.dumps(request_metadata) if request_metadata else None` — note that
Python truthiness makes an empty mapping indistinguishable from an
absent one, both stored as NULL. -/
def encodeStoredMetadata : Option (List (String × String)) → Option String
  | none => none
  | some m => if m = [] then none else some (jsonDumps m)

/-- The row inserted by `log_request` for arguments carrying the model
name `mn`: the id comes from the AUTOINCREMENT key, the timestamp from
`datetime.utcnow()`, `cached` is encoded as `1`/`0` and the metadata as
its JSON text or NULL. -/
def dbRowOfArgs (nextId now : Nat) (mn : String) (a : LogArgs) : DbRow :=
  { id := nextId,
    timestamp := now,
    api_key_hash := a.api_key_hash,
    model_name := mn,
    provider_model := a.provider_model,
    prompt_tokens := a.prompt_tokens,
    completion_tokens := a.completion_tokens,
    total_tokens := a.total_tokens,
    cost_usd := a.cost_usd,
    latency_ms := a.latency_ms,
    status_code := a.status_code,
    cached := if a.cached then 1 else 0,
    error_message := a.error_message,
    request_metadata := encodeStoredMetadata a.request_metadata }

/-- `log_request` (`usage_tracker.py` lines 84-132): a no-op when request
logging is disabled; otherwise appends one row.  The `model_name` column
is NOT NULL, so an insert with a `None` model name raises, and the
`except` at line 131 swallows the failure after logging it — no row is
appended in that case. -/
def logRequest (gw : GatewaySettings) (db : List DbRow) (nextId now : Nat)
    (a : LogArgs) : List DbRow :=
  if gw.request_logging_enabled then
    match a.model_name with
    | some mn => db ++ [dbRowOfArgs nextId now mn a]
    | none => db
  else db

/-- Descending insertion for the `ORDER BY timestamp DESC` model. -/
def insertByKeyDesc {α : Type} (key : α → Nat) (r : α) : List α → List α
  | [] => [r]
  | x :: xs => if key x ≤ key r then r :: x :: xs else x :: insertByKeyDesc key r xs

/-- Descending sort by a `Nat` key, modelling SQL `ORDER BY ... DESC`
(ties are returned in an order the SQL leaves unspecified). -/
def sortByKeyDesc {α : Type} (key : α → Nat) : List α → List α
  | [] => []
  | x :: xs => insertByKeyDesc key x (sortByKeyDesc key xs)

/-- SQLite `LIMIT n`: at most `n` rows when `n` is non-negative; a
negative limit places no bound on the number of rows returned. -/
def sqlLimit {α : Type} (n : Int) (l : List α) : List α :=
  if n < 0 then l else l.take n.toNat

/-- `get_recent_requests` (`usage_tracker.py` lines 213-236): optionally
filter by the caller hash (only when the argument is truthy), order by
timestamp descending, and apply the SQL `LIMIT`. -/
def getRecentRequests (db : List DbRow) (limit : Int)
    (api_key_hash : Option String) : List DbRow :=
  let rows := if pyTruthyOptStr api_key_hash then
      db.filter (fun r => r.api_key_hash == api_key_hash)
    else db
  sqlLimit limit (sortByKeyDesc (fun r => r.timestamp) rows)

/-- The `/usage/recent` admin route (`admin_routes.py` lines 45-68):
`limit_param = min(request.args.get("limit", 50, type=int), 200)`, then
`get_recent_requests(limit=limit_param)` with no caller-hash filter. -/
def adminRecentRequests (db : List DbRow) (limitParam : Int) : List DbRow :=
  getRecentRequests db (min limitParam 200) none

/-- SQL `SUM` over an integer column: NULL on the empty set. -/
def sqlSumInt (xs : List Int) : Option Int :=
  if xs.isEmpty then none else some (xs.foldl (· + ·) 0)

/-- SQL `SUM` over a nullable REAL column: NULLs are ignored, and the
result is NULL when no non-NULL value remains. -/
def sqlSumRatOpt (xs : List (Option Rat)) : Option Rat :=
  let vs := xs.filterMap id
  if vs.isEmpty then none else some (vs.foldl (· + ·) 0)

/-- SQL `AVG` over an integer column: NULL on the empty set, otherwise
the exact mean as a REAL. -/
def sqlAvgInt (xs : List Int) : Option Rat :=
  if xs.isEmpty then none
  else some (((xs.foldl (· + ·) 0 : Int) : Rat) / (xs.length : Rat))

/-- Floor of a rational, computed through flooring integer division. -/
def ratFloor (q : Rat) : Int :=
  Int.fdiv q.num (q.den : Int)

/-- Python `round(x, d)` modelled on the rationals: scale by `10 ^ d`,
round half to even, and scale back. -/
def pyRound (q : Rat) (d : Nat) : Rat :=
  let x : Rat := q * ((10 : Rat) ^ d)
  let f : Int := ratFloor x
  let r : Rat := x - (f : Rat)
  let n : Int :=
    if r < 1/2 then f
    else if 1/2 < r then f + 1
    else if f % 2 = 0 then f else f + 1
  (n : Rat) / ((10 : Rat) ^ d)

/-- The row filter shared by the two aggregate queries of
`get_usage_summary` (`usage_tracker.py` lines 147-158): the timestamp
window is inclusive of the cutoff, and the two optional filters apply
only when the route passed a truthy value. -/
def summaryRowMatches (cutoff : Nat) (api_key_hash : Option String)
    (model_name : Option String) (r : DbRow) : Bool :=
  decide (cutoff ≤ r.timestamp) &&
  (match api_key_hash with
   | some h => if h = "" then true else r.api_key_hash == some h
   | none => true) &&
  (match model_name with
   | some m => if m = "" then true else r.model_name == m
   | none => true)

/-- One element of the `by_model` breakdown (`usage_tracker.py` lines
178-191): the per-group aggregates are returned as the SQL produced
them, with no NULL-coalescing. -/
structure ByModelEntry where
  model_name : String
  requests : Nat
  tokens : Option Int
  cost_usd : Option Rat
  avg_latency_ms : Option Rat
deriving DecidableEq

/-- The `totals` object of the usage summary (lines 195-209), after the
`or 0` coalescing and rounding done in Python. -/
structure UsageTotals where
  requests : Nat
  prompt_tokens : Int
  completion_tokens : Int
  total_tokens : Int
  cost_usd : Rat
  avg_latency_ms : Rat
  cached_requests : Nat
  error_requests : Nat
  cache_hit_rate : Rat
deriving DecidableEq

/-- The value returned by `get_usage_summary`. -/
structure UsageSummary where
  period_days : Nat
  totals : UsageTotals
  by_model : List ByModelEntry
deriving DecidableEq

/-- Distinct values in first-occurrence order, for the `GROUP BY` keys. -/
def dedupKeepFirst : List String → List String
  | [] => []
  | x :: xs => x :: (dedupKeepFirst xs).filter (fun y => y ≠ x)

/-- The aggregates of one `GROUP BY model_name` group. -/
def byModelEntryFor (matched : List DbRow) (name : String) : ByModelEntry :=
  let rows := matched.filter (fun r => r.model_name == name)
  { model_name := name,
    requests := rows.length,
    tokens := sqlSumInt (rows.map (fun r => r.total_tokens)),
    cost_usd := sqlSumRatOpt (rows.map (fun r => r.cost_usd)),
    avg_latency_ms := sqlAvgInt (rows.map (fun r => r.latency_ms)) }

/-- The per-model breakdown query: group the matched rows by model name
and order the groups by request count descending. -/
def byModelBreakdown (matched : List DbRow) : List ByModelEntry :=
  sortByKeyDesc (fun e => e.requests)
    ((dedupKeepFirst (matched.map (fun r => r.model_name))).map (byModelEntryFor matched))

/-- `get_usage_summary` (`usage_tracker.py` lines 134-211).  `now` and
the cutoff `now - days` abstract the `datetime.utcnow()` arithmetic; the
SQL aggregates go through the NULL-on-empty helpers and are then
coalesced with `or 0` and rounded exactly as in the source, including
the `max(total_requests or 1, 1)` denominator of the cache-hit rate. -/
def getUsageSummary (db : List DbRow) (now : Nat) (api_key_hash : Option String)
    (days : Nat) (model_name : Option String) : UsageSummary :=
  let cutoff := now - days
  let matched := db.filter (summaryRowMatches cutoff api_key_hash model_name)
  let requests := matched.length
  let cached_requests := (matched.filter (fun r => r.cached == 1)).length
  let error_requests := (matched.filter (fun r => decide ((400 : Int) ≤ r.status_code))).length
  { period_days := days,
    totals :=
      { requests := requests,
        prompt_tokens := (sqlSumInt (matched.map (fun r => r.prompt_tokens))).getD 0,
        completion_tokens := (sqlSumInt (matched.map (fun r => r.completion_tokens))).getD 0,
        total_tokens := (sqlSumInt (matched.map (fun r => r.total_tokens))).getD 0,
        cost_usd := pyRound ((sqlSumRatOpt (matched.map (fun r => r.cost_usd))).getD 0) 4,
        avg_latency_ms := pyRound ((sqlAvgInt (matched.map (fun r => r.latency_ms))).getD 0) 2,
        cached_requests := cached_requests,
        error_requests := error_requests,
        cache_hit_rate :=
          pyRound ((cached_requests : Rat) /
            ((max (if requests = 0 then 1 else requests) 1 : Nat) : Rat) * 100) 2 },
    by_model := byModelBreakdown matched }

/-- A single-quote character, for rendering the Python error message. -/
def sq : String := String.singleton (Char.ofNat 39)

/-- Python `repr` of a list of strings, as an f-string renders it. -/
def pyListRepr (l : List String) : String :=
  "[" ++ String.intercalate ", " (l.map (fun s => sq ++ s ++ sq)) ++ "]"

/-- The message of the `ValueError` raised by `_resolve_model_identifier`
(lines 128-130). -/
def modelNotFoundMessage (requested : Option String) (available : List String) : String :=
  "Model " ++ sq ++ pyStrOfOpt requested ++ sq ++ " not found. Available: " ++ pyListRepr available

/-- Exceptions escaping `generate_chat_completion`: the `ValueError` of
resolution, or whatever the LiteLLM backend raised. -/
inductive RouterError where
  | valueError (msg : String)
  | backendError (msg : String)
deriving DecidableEq

/-- The message carried by a router exception (`str(e)` in the routes). -/
def routerErrorMessage : RouterError → String
  | .valueError m => m
  | .backendError m => m

/-- One chat message, `{"role": ..., "content": ...}`. -/
structure Message where
  role : String
  content : String
deriving DecidableEq

/-- The `completion_kwargs` dict handed to `litellm.completion`
(`llm_router.py` lines 222-255).  Optional fields are keys that are only
present under the conditions coded there; `extras` models the trailing
`completion_kwargs.update(additional_params)` (the route only forwards
pass-through keys, which are disjoint from the explicit ones). -/
structure CompletionKwargs where
  model : Option String
  messages : List Message
  temperature : Rat
  stream : Bool
  timeout : Nat
  num_retries : Nat
  fallbacks : Option (List (Option String))
  cache : Option Nat
  max_tokens : Option Int
  api_base : Option String
  api_key : Option String
  extras : List (String × String)
deriving DecidableEq

/-- The plan-construction prefix of `generate_chat_completion`
(`llm_router.py` lines 205-255): resolve the model, read timeout and
retry counts entry-first, build the fallback list and attach it when
non-empty, attach the cache TTL when both cache flags are on, attach
`max_tokens` when the argument is truthy, and attach the custom-endpoint
fields for the `custom_openai` family when an `api_base` is set. -/
def buildCompletionKwargs (gw : GatewaySettings) (st : RouterState)
    (messages : List Message) (model : Option String) (temperature : Rat)
    (max_tokens : Option Int) (stream : Bool) (extras : List (String × String)) :
    Except RouterError CompletionKwargs :=
  match resolveModelIdentifier st model with
  | .error (.modelNotFound rq avail) =>
    .error (.valueError (modelNotFoundMessage rq avail))
  | .ok (litellm_model_id, model_config) =>
    let fb := buildFallbackModelList st model_config
    .ok { model := litellm_model_id,
          messages := messages,
          temperature := temperature,
          stream := stream,
          timeout := model_config.timeout_seconds.getD gw.default_timeout_seconds,
          num_retries := model_config.max_retries.getD gw.default_max_retries,
          fallbacks := if fb = [] then none else some fb,
          cache :=
            if model_config.cache_enabled.getD true && gw.cache_enabled then
              some (model_config.cache_ttl_seconds.getD gw.cache_default_ttl_seconds)
            else none,
          max_tokens := if pyTruthyOptInt max_tokens then max_tokens else none,
          api_base :=
            if model_config.provider = some "custom_openai" &&
               pyTruthyOptStr model_config.api_base then
              model_config.api_base
            else none,
          api_key :=
            if model_config.provider = some "custom_openai" &&
               pyTruthyOptStr model_config.api_base then
              some (model_config.api_key.getD "not-needed")
            else none,
          extras := extras }

/-- A tool call on a backend response message. -/
structure ToolCall where
  id : String
  ty : String
  function_name : String
  function_arguments : String
deriving DecidableEq

/-- The `usage` object of a raw LiteLLM response (may be absent). -/
structure LiteLLMUsage where
  prompt_tokens : Int
  completion_tokens : Int
  total_tokens : Int
deriving DecidableEq

/-- The parts of a raw single-shot LiteLLM response that
`_format_completion_response` reads.  `cache_hit` models
`_hidden_params.get("cache_hit", False)`. -/
structure LiteLLMResponse where
  id : String
  content : Option String
  tool_calls : List ToolCall := []
  refusal : Option String := none
  finish_reason : Option String := none
  usage : Option LiteLLMUsage := none
  cache_hit : Bool := false
deriving DecidableEq

/-- The `usage` object of the normalized response. -/
structure UsageData where
  prompt_tokens : Int
  completion_tokens : Int
  total_tokens : Int
  cost_usd : Option Rat
deriving DecidableEq

/-- The `gateway_metadata` object of the normalized response. -/
structure GatewayMetadata where
  latency_ms : Int
  provider_model : Option String
  cached : Bool
deriving DecidableEq

/-- The normalized single-shot response built by
`_format_completion_response` (`llm_router.py` lines 323-384). -/
structure NormalizedResponse where
  id : String
  model : Option String
  content : Option String
  tool_calls : List ToolCall
  refusal : Option String
  finish_reason : Option String
  usage : UsageData
  gateway_metadata : GatewayMetadata
deriving DecidableEq

/-- `_format_completion_response`: cost through the backend cost function
(absent when it fails), token counts zeroed when the backend sent no
usage, tool calls and refusal copied only when truthy, and the gateway
metadata assembled from the latency, target id and cache-hit flag. -/
def formatCompletionResponse (costFn : LiteLLMResponse → Option Rat)
    (resp : LiteLLMResponse) (model_name : Option String)
    (litellm_model_id : Option String) (latency_ms : Int) : NormalizedResponse :=
  let usage : UsageData :=
    match resp.usage with
    | some u =>
      { prompt_tokens := u.prompt_tokens,
        completion_tokens := u.completion_tokens,
        total_tokens := u.total_tokens,
        cost_usd := costFn resp }
    | none =>
      { prompt_tokens := 0, completion_tokens := 0, total_tokens := 0,
        cost_usd := costFn resp }
  { id := resp.id,
    model := model_name,
    content := resp.content,
    tool_calls := resp.tool_calls,
    refusal := if pyTruthyOptStr resp.refusal then resp.refusal else none,
    finish_reason := resp.finish_reason,
    usage := usage,
    gateway_metadata :=
      { latency_ms := latency_ms,
        provider_model := litellm_model_id,
        cached := resp.cache_hit } }

/-- A tool-call delta inside a raw streaming chunk. -/
structure ToolCallDelta where
  index : Nat
  id : Option String
  ty : String
  function_name : Option String
  function_arguments : String
deriving DecidableEq

/-- The parts of a raw LiteLLM streaming chunk that
`_stream_response_generator` reads. -/
structure LiteLLMChunk where
  id : Option String := none
  content : Option String := none
  role : Option String := none
  tool_calls : List ToolCallDelta := []
  finish_reason : Option String := none
deriving DecidableEq

/-- One normalized streaming chunk (`llm_router.py` lines 312-321): the
delta keys are present only when the raw delta field was truthy. -/
structure NormalizedChunk where
  id : String
  model : Option String
  delta_content : Option String
  delta_role : Option String
  delta_tool_calls : Option (List ToolCallDelta)
  finish_reason : Option String
deriving DecidableEq

/-- `_stream_response_generator`, per chunk (`llm_router.py` lines
283-321). -/
def streamChunkToDict (model_name : Option String) (c : LiteLLMChunk) : NormalizedChunk :=
  { id := c.id.getD "chatcmpl-stream",
    model := model_name,
    delta_content := if pyTruthyOptStr c.content then c.content else none,
    delta_role := if pyTruthyOptStr c.role then c.role else none,
    delta_tool_calls := if c.tool_calls = [] then none else some c.tool_calls,
    finish_reason := c.finish_reason }

/-- What `generate_chat_completion` hands back: a normalized single-shot
response, or the (lazy, here fully materialised) sequence of normalized
chunks. -/
inductive RouterOutput where
  | single (resp : NormalizedResponse)
  | stream (chunks : List NormalizedChunk)
deriving DecidableEq

/-- `generate_chat_completion` (`llm_router.py` lines 182-274),
parameterised by the external backend (`litellm.completion`) in its two
result shapes and by the cost estimator.  The second component counts
backend invocations.  `latency_ms` abstracts the wall-clock measurement
of lines 205 and 260. -/
def generateChatCompletion (gw : GatewaySettings) (st : RouterState)
    (backendSingle : CompletionKwargs → Except String LiteLLMResponse)
    (backendStream : CompletionKwargs → Except String (List LiteLLMChunk))
    (costFn : LiteLLMResponse → Option Rat) (latency_ms : Int)
    (messages : List Message) (model : Option String) (temperature : Rat)
    (max_tokens : Option Int) (stream : Bool) (extras : List (String × String)) :
    Except RouterError RouterOutput × Nat :=
  match buildCompletionKwargs gw st messages model temperature max_tokens stream extras with
  | .error e => (.error e, 0)
  | .ok kw =>
    if stream then
      match backendStream kw with
      | .error m => (.error (.backendError m), 1)
      | .ok chunks =>
        (.ok (.stream (chunks.map (streamChunkToDict (pyOrStr model st.default_model_name)))), 1)
    else
      match backendSingle kw with
      | .error m => (.error (.backendError m), 1)
      | .ok resp =>
        (.ok (.single (formatCompletionResponse costFn resp
          (pyOrStr model st.default_model_name) kw.model latency_ms)), 1)

/-- The request payload read by `create_chat_completion`
(`chat_routes.py` lines 97-114), with the defaults applied there.  A
missing `messages` key and an empty list are both falsy, hence modelled
as the empty list; `extras` holds the pass-through parameters. -/
structure ChatPayload where
  messages : List Message := []
  model : Option String := none
  temperature : Rat := (7 : Rat) / 10
  max_tokens : Option Int := none
  stream : Bool := false
  extras : List (String × String) := []
deriving DecidableEq

/-- One event written to the SSE stream by `generate_sse_stream`
(`chat_routes.py` lines 277-339): a data chunk, the `[DONE]` terminator,
or the error payload of type `stream_error`. -/
inductive SseEvent where
  | data (c : NormalizedChunk)
  | done
  | streamError (msg : String)
deriving DecidableEq

/-- The HTTP outcome of the chat route: a 200 JSON body, an error
envelope `{message, type, code}` with its status, or a 200 SSE stream. -/
inductive HttpResult where
  | ok (resp : NormalizedResponse)
  | errorResponse (status : Nat) (ty code msg : String)
  | sse (events : List SseEvent)
deriving DecidableEq

/-- The observable effect of one call to the chat route: the HTTP
result, the number of backend invocations, and the ledger contents
afterwards. -/
structure HandlerOutcome where
  result : HttpResult
  backendCalls : Nat
  ledger : List DbRow
deriving DecidableEq

/-- `len(content.split()) // 4 + 1`: the per-chunk token estimate of the
streaming route (`chat_routes.py` lines 293-295), counted only for
chunks whose delta content is truthy. -/
def chunkTokenEstimate (c : NormalizedChunk) : Int :=
  let content := c.delta_content.getD ""
  if content = "" then 0
  else (((content.split (fun ch => ch.isWhitespace)).filter (fun t => t ≠ "")).length / 4 : Nat) + 1

/-- `_log_error_request` (`chat_routes.py` lines 232-249): one ledger row
with the given status, the error message, and `model_name or "unknown"`. -/
def logErrorRequest (gw : GatewaySettings) (db : List DbRow) (nextId now : Nat)
    (model_name : Option String) (status_code : Int) (error_message : String)
    (latency_ms : Int) (api_key_hash : String) : List DbRow :=
  logRequest gw db nextId now
    { model_name := some (pyStrOrD model_name "unknown"),
      latency_ms := latency_ms,
      status_code := status_code,
      api_key_hash := some api_key_hash,
      error_message := some error_message }

/-- `_log_successful_request` (`chat_routes.py` lines 193-218): one
ledger row built from the normalized response usage and gateway
metadata, with status 200. -/
def logSuccessfulRequest (gw : GatewaySettings) (db : List DbRow) (nextId now : Nat)
    (resp : NormalizedResponse) (model_name : Option String) (latency_ms : Int)
    (api_key_hash : String) : List DbRow :=
  logRequest gw db nextId now
    { model_name := model_name,
      prompt_tokens := resp.usage.prompt_tokens,
      completion_tokens := resp.usage.completion_tokens,
      total_tokens := resp.usage.total_tokens,
      cost_usd := resp.usage.cost_usd,
      latency_ms := latency_ms,
      status_code := 200,
      cached := resp.gateway_metadata.cached,
      api_key_hash := some api_key_hash,
      provider_model := resp.gateway_metadata.provider_model }

/-- `create_chat_completion` together with `_handle_streaming_response`
(`chat_routes.py` lines 57-190 and 262-352), parameterised by the
backend and cost estimator and with the clock abstracted to
`nextId`/`now`/`latency_ms`.  Control flow mirrors the source: missing
body and missing messages return 400 without logging; in non-streaming
mode a `ValueError` is logged with status 400 and returned as an
`invalid_request_error`, any other exception is logged with status 500;
in streaming mode the generator catches every exception itself, yields
one `stream_error` event and logs with status 500, while a successful
stream yields the chunks, the `[DONE]` terminator, and logs one row with
the estimated completion tokens.  The two cross-mode arms are
unreachable for the `generateChatCompletion` above but mirror what the
interpreter would do there (`jsonify` of a generator raises, caught by
the 500 handler; iterating a dict in the SSE loop raises inside the
generator, caught as a stream error). -/
def createChatCompletion (gw : GatewaySettings) (st : RouterState)
    (backendSingle : CompletionKwargs → Except String LiteLLMResponse)
    (backendStream : CompletionKwargs → Except String (List LiteLLMChunk))
    (costFn : LiteLLMResponse → Option Rat)
    (db : List DbRow) (nextId now : Nat) (latency_ms : Int)
    (api_key_hash : String) (body : Option ChatPayload) : HandlerOutcome :=
  match body with
  | none =>
    { result := .errorResponse 400 "invalid_request_error" "missing_body"
        "Request body is required",
      backendCalls := 0, ledger := db }
  | some p =>
    if p.messages = [] then
      { result := .errorResponse 400 "invalid_request_error" "missing_messages"
          "messages field is required",
        backendCalls := 0, ledger := db }
    else
      let effective_model := pyOrStr p.model st.default_model_name
      if p.stream then
        match generateChatCompletion gw st backendSingle backendStream costFn latency_ms
            p.messages p.model p.temperature p.max_tokens true p.extras with
        | (.error e, n) =>
          let msg := routerErrorMessage e
          { result := .sse [.streamError msg],
            backendCalls := n,
            ledger := logErrorRequest gw db nextId now effective_model 500 msg
              latency_ms api_key_hash }
        | (.ok (.stream cs), n) =>
          { result := .sse ((cs.map SseEvent.data) ++ [.done]),
            backendCalls := n,
            ledger := logRequest gw db nextId now
              { model_name := effective_model,
                completion_tokens := (cs.map chunkTokenEstimate).foldl (· + ·) 0,
                latency_ms := latency_ms,
                status_code := 200,
                api_key_hash := some api_key_hash } }
        | (.ok (.single _), n) =>
          { result := .sse [.streamError "attribute error"],
            backendCalls := n,
            ledger := logErrorRequest gw db nextId now effective_model 500
              "attribute error" latency_ms api_key_hash }
      else
        match generateChatCompletion gw st backendSingle backendStream costFn latency_ms
            p.messages p.model p.temperature p.max_tokens false p.extras with
        | (.error (.valueError m), n) =>
          { result := .errorResponse 400 "invalid_request_error" "invalid_model" m,
            backendCalls := n,
            ledger := logErrorRequest gw db nextId now p.model 400 m
              latency_ms api_key_hash }
        | (.error (.backendError m), n) =>
          { result := .errorResponse 500 "server_error" "internal_error"
              ("Internal server error: " ++ m),
            backendCalls := n,
            ledger := logErrorRequest gw db nextId now p.model 500 m
              latency_ms api_key_hash }
        | (.ok (.single resp), n) =>
          { result := .ok resp,
            backendCalls := n,
            ledger := logSuccessfulRequest gw db nextId now resp effective_model
              latency_ms api_key_hash }
        | (.ok (.stream _), n) =>
          { result := .errorResponse 500 "server_error" "internal_error"
              ("Internal server error: " ++ "Object of type generator is not JSON serializable"),
            backendCalls := n,
            ledger := logErrorRequest gw db nextId now p.model 500
              "Object of type generator is not JSON serializable" latency_ms api_key_hash }

/-! ### Fixtures used by witnesses and counterexamples -/

/-- A catalog entry whose fallback list names itself twice: every name
resolves, so both occurrences are appended to the fallback chain. -/
def exCfgA : ModelCfg :=
  { name := some "a", model_id := some "m", fallbacks := ["a", "a"] }

/-- A registry with the single entry `a`, which is also the default. -/
def exSt : RouterState :=
  { available_models := [("a", exCfgA)], default_model_name := some "a" }

/-- Gateway settings with all defaults. -/
def gwEx : GatewaySettings := {}

/-- Dict lookup lifted to the possibly-absent effective model name. -/
def optLookup (st : RouterState) : Option String → Option ModelCfg
  | none => none
  | some n => lookupModel st n

/-! ### C1 — fallback chain construction -/

/-- The global-fallback pass only ever appends ids that are not already
in the accumulated list, so the ids it adds are pairwise distinct and
disjoint from the accumulator. -/
theorem addGlobalFallbacks_adds_fresh (st : RouterState) :
    ∀ (ns : List String) (acc : List (Option String)),
    ∃ s, addGlobalFallbacks st ns acc = acc ++ s ∧ s.Nodup ∧ ∀ x ∈ s, x ∉ acc := by
  intro ns
  induction ns with
  | nil => exact fun acc => ⟨[], by simp [addGlobalFallbacks]⟩
  | cons n ns ih =>
    intro acc
    rw [addGlobalFallbacks]
    cases hlk : lookupModel st n with
    | none => exact ih acc
    | some gc =>
      by_cases hmem : litellmTargetId gc ∈ acc
      · simpa [hmem] using ih acc
      · obtain ⟨s', hEq, hNd, hFresh⟩ := ih (acc ++ [litellmTargetId gc])
        refine ⟨litellmTargetId gc :: s', ?_, ?_, ?_⟩
        · simp only [if_neg hmem, hEq, List.append_assoc, List.singleton_append]
        · refine List.nodup_cons.mpr ⟨fun hx => ?_, hNd⟩
          exact hFresh _ hx (by simp)
        · intro x hx
          rcases List.mem_cons.mp hx with rfl | hx'
          · exact hmem
          · intro hxacc
            exact hFresh x hx' (List.mem_append_left _ hxacc)

/-- C1 (corrected).  The fallback chain is the entry-fallback ids
(appended with no de-duplication) followed by a block of global-fallback
ids that are pairwise distinct and distinct from every entry-fallback
id.  No de-duplication is applied within the entry fallbacks and the
primary target id is nowhere excluded, so the original claim fails (see
the counterexample); this is the de-duplication the code does provide. -/
theorem fallbackChain_globalPass_dedup (st : RouterState) (cfg : ModelCfg) :
    ∃ s, buildFallbackModelList st cfg = entryFallbackIds st cfg ++ s ∧
      s.Nodup ∧ ∀ x ∈ s, x ∉ entryFallbackIds st cfg :=
  addGlobalFallbacks_adds_fresh st st.global_fallback_models (entryFallbackIds st cfg)

/-- C1 counterexample.  For the entry `a` (target id `m`) whose fallback
list is `["a", "a"]`, the chain is `[m, m]`: it contains a duplicate
target id and contains the primary target id resolved for the entry
itself. -/
theorem fallbackChain_dup_counterexample :
    buildFallbackModelList exSt exCfgA = [some "m", some "m"] ∧
    ¬ (buildFallbackModelList exSt exCfgA).Nodup ∧
    resolveModelIdentifier exSt (some "a") = .ok (some "m", exCfgA) ∧
    some "m" ∈ buildFallbackModelList exSt exCfgA := by
  refine ⟨by decide, by decide, by rfl, by decide⟩

/-! ### C4 — unknown model name lists the catalog -/

/-- C4 (confirmed).  Whenever the effective model name (the requested
one after the default substitution) is not a key of the catalog,
resolution fails with a model-not-found error whose `available` list is
exactly the list of catalog model names. -/
theorem resolve_unknown_available_names (st : RouterState) (r : Option String)
    (h : optLookup st (effectiveRequested st r) = none) :
    resolveModelIdentifier st r =
      .error (.modelNotFound (effectiveRequested st r) (modelKeys st)) := by
  unfold resolveModelIdentifier
  cases heff : effectiveRequested st r with
  | none => rfl
  | some name =>
    have hl : lookupModel st name = none := by simpa [optLookup, heff] using h
    simp [hl]

/-- Witness for C4: requesting `ghost` against the one-entry registry. -/
theorem resolve_unknown_available_names_witness :
    optLookup exSt (effectiveRequested exSt (some "ghost")) = none ∧
    resolveModelIdentifier exSt (some "ghost") =
      .error (.modelNotFound (effectiveRequested exSt (some "ghost")) (modelKeys exSt)) :=
  ⟨by decide, resolve_unknown_available_names exSt (some "ghost") (by decide)⟩

/-! ### C6 — default substitution -/

/-- C6 (confirmed).  With a (non-empty) default model set, resolving
with no requested name gives exactly the result of resolving the default
name explicitly. -/
theorem resolve_default_substitution (st : RouterState) (d : String)
    (hd : st.default_model_name = some d) (hne : d ≠ "") :
    resolveModelIdentifier st none = resolveModelIdentifier st (some d) := by
  unfold resolveModelIdentifier effectiveRequested
  simp [pyTruthyOptStr, hd, hne]

/-- Witness for C6 on the one-entry registry with default `a`. -/
theorem resolve_default_substitution_witness :
    exSt.default_model_name = some "a" ∧ ("a" : String) ≠ "" ∧
    resolveModelIdentifier exSt none = resolveModelIdentifier exSt (some "a") :=
  ⟨by decide, by decide, resolve_default_substitution exSt "a" (by decide) (by decide)⟩

/-! ### C10 — empty string treated as absent -/

/-- C10 (confirmed).  An empty-string model name is falsy in Python, so
resolution substitutes the default exactly as for an absent name:
resolving the empty string and resolving nothing are the same function
of the state, and the effective name becomes the default. -/
theorem resolve_empty_string_as_absent (st : RouterState) (d : String)
    (hd : st.default_model_name = some d) :
    resolveModelIdentifier st (some "") = resolveModelIdentifier st none ∧
    effectiveRequested st (some "") = some d := by
  constructor
  · unfold resolveModelIdentifier effectiveRequested
    simp [pyTruthyOptStr]
  · unfold effectiveRequested
    simp [pyTruthyOptStr, hd]

/-- Witness for C10 on the one-entry registry. -/
theorem resolve_empty_string_as_absent_witness :
    exSt.default_model_name = some "a" ∧
    (resolveModelIdentifier exSt (some "") = resolveModelIdentifier exSt none ∧
     effectiveRequested exSt (some "") = some "a") :=
  ⟨by decide, resolve_empty_string_as_absent exSt "a" (by decide)⟩

/-! ### C2 — reload failure atomicity -/

/-- C2 (corrected).  A missing file and an unparseable document fail
before any state is touched, so they leave the catalog, default model
and global fallbacks exactly as they were.  A parseable document of the
wrong shape (not a mapping) also fails, but only after the live catalog
has been cleared in place: the default model and global fallbacks keep
their previous values while the catalog is left empty, so reload is not
all-or-nothing for that failure class. -/
theorem reload_invalid_source_effects (st : RouterState) :
    (reloadConfiguration .missing st).state = st ∧
    (reloadConfiguration .missing st).error = some .fileNotFound ∧
    (reloadConfiguration .unparseable st).state = st ∧
    (reloadConfiguration .unparseable st).error = some .yamlError ∧
    (reloadConfiguration .nonMapping st).error = some .attributeError ∧
    (reloadConfiguration .nonMapping st).state.default_model_name = st.default_model_name ∧
    (reloadConfiguration .nonMapping st).state.global_fallback_models = st.global_fallback_models ∧
    (reloadConfiguration .nonMapping st).state.available_models = [] :=
  ⟨rfl, rfl, rfl, rfl, rfl, rfl, rfl, rfl⟩

/-- C2 counterexample.  Reloading a parseable non-mapping document over
the one-entry registry raises, yet the surviving state differs from the
previous one: the catalog has been emptied, so the name `a`, resolvable
before the failed reload, is no longer resolvable. -/
theorem reload_wrongShape_counterexample :
    (reloadConfiguration .nonMapping exSt).state ≠ exSt ∧
    (reloadConfiguration .nonMapping exSt).state.available_models = [] ∧
    exSt.available_models ≠ [] ∧
    (reloadConfiguration .nonMapping exSt).error = some .attributeError ∧
    lookupModel (reloadConfiguration .nonMapping exSt).state "a" = none ∧
    lookupModel exSt "a" = some exCfgA := by
  refine ⟨by decide, by decide, by decide, by decide, by decide, by decide⟩

/-! ### C7 — attachment of max_tokens -/

/-- C7 (corrected).  The plan handed to the backend carries `max_tokens`
exactly when the caller supplied a truthy (that is, non-zero) value:
omission and an explicit `0` leave the field absent, but a negative
value is attached as-is, so "attached iff positive" fails (see the
counterexample). -/
theorem maxTokens_attached_iff_nonzero (gw : GatewaySettings) (st : RouterState)
    (messages : List Message) (model : Option String) (temperature : Rat)
    (max_tokens : Option Int) (stream : Bool) (extras : List (String × String))
    (kw : CompletionKwargs)
    (h : buildCompletionKwargs gw st messages model temperature max_tokens stream extras = .ok kw) :
    kw.max_tokens =
      match max_tokens with
      | some v => if v = 0 then none else some v
      | none => none := by
  unfold buildCompletionKwargs at h
  split at h
  · exact absurd h (by simp)
  · cases h
    rcases max_tokens with _ | v
    · simp [pyTruthyOptInt]
    · by_cases hv : v = 0 <;> simp [pyTruthyOptInt, hv]

/-- The kwargs produced for the witness call of C7. -/
def exKw : CompletionKwargs :=
  { model := some "m", messages := [], temperature := 1, stream := false,
    timeout := 60, num_retries := 2, fallbacks := some [some "m", some "m"],
    cache := some 3600, max_tokens := some 5, api_base := none, api_key := none,
    extras := [] }

/-- Witness for C7: a caller-supplied `max_tokens` of 5 is attached. -/
theorem maxTokens_attached_iff_nonzero_witness :
    buildCompletionKwargs gwEx exSt [] (some "a") 1 (some 5) false [] = .ok exKw ∧
    exKw.max_tokens = some 5 := by
  refine ⟨by rfl, ?_⟩
  have h := maxTokens_attached_iff_nonzero gwEx exSt [] (some "a") 1 (some 5) false [] exKw (by rfl)
  simpa using h

/-- C7 counterexample.  A caller-supplied `max_tokens` of `-1` is not
positive, yet the field is attached to the plan. -/
theorem maxTokens_negative_counterexample :
    Except.map (fun kw => kw.max_tokens)
      (buildCompletionKwargs gwEx exSt [] (some "a") 1 (some (-1)) false []) =
      .ok (some (-1)) := by rfl

/-! ### C9 — cap on the recent-records query -/

/-- Descending insertion grows the list by exactly one element. -/
theorem length_insertByKeyDesc {α : Type} (key : α → Nat) (r : α) (l : List α) :
    (insertByKeyDesc key r l).length = l.length + 1 := by
  induction l with
  | nil => rfl
  | cons x xs ih =>
    rw [insertByKeyDesc]
    split
    · rfl
    · simp [ih]

/-- The descending sort preserves length. -/
theorem length_sortByKeyDesc {α : Type} (key : α → Nat) (l : List α) :
    (sortByKeyDesc key l).length = l.length := by
  induction l with
  | nil => rfl
  | cons x xs ih => rw [sortByKeyDesc, length_insertByKeyDesc, ih, List.length_cons]

/-- C9 (corrected).  For every non-negative requested limit the
`/usage/recent` route returns at most 200 records, the fixed cap it
applies through `min(limit, 200)`; a negative requested limit, however,
reaches the SQL `LIMIT` unclamped and disables the bound entirely (see
the counterexample). -/
theorem recent_cap_nonneg_limit (db : List DbRow) (limitParam : Int)
    (h : 0 ≤ limitParam) :
    (adminRecentRequests db limitParam).length ≤ 200 := by
  unfold adminRecentRequests getRecentRequests sqlLimit
  have hneg : ¬ (min limitParam 200 < 0) := by omega
  have hcap : (min limitParam 200).toNat ≤ 200 := by omega
  simp only [pyTruthyOptStr, if_neg hneg, Bool.false_eq_true, if_false]
  exact le_trans (List.length_take_le _ _) hcap

/-- Witness for C9: a requested limit of 500 is non-negative, so the
route returns at most the cap. -/
theorem recent_cap_nonneg_limit_witness :
    (0 : Int) ≤ 500 ∧ (adminRecentRequests [] 500).length ≤ 200 :=
  ⟨by decide, recent_cap_nonneg_limit [] 500 (by decide)⟩

/-- A minimal ledger row used to populate the large store of the C9
counterexample. -/
def mkRowC9 (i : Nat) : DbRow :=
  { id := i, timestamp := i, model_name := "m" }

/-- A store holding more rows than the cap. -/
def bigDb : List DbRow := (List.range 201).map mkRowC9

/-- C9 counterexample.  Requesting limit `-1` (a legal integer query
parameter) bypasses the cap: `min(-1, 200) = -1` and a negative SQL
`LIMIT` is unbounded, so all 201 rows come back. -/
theorem recent_negative_limit_counterexample :
    ¬ ((adminRecentRequests bigDb (-1)).length ≤ 200) := by
  have hlen : (adminRecentRequests bigDb (-1)).length = 201 := by
    unfold adminRecentRequests getRecentRequests sqlLimit
    have hneg : min (-1 : Int) 200 < 0 := by decide
    simp only [pyTruthyOptStr, if_pos hneg, Bool.false_eq_true, if_false]
    rw [length_sortByKeyDesc]
    simp [bigDb]
  omega

/-! ### C8 — summarize over an empty window -/

/-- Python `round(0, d)` is 0. -/
theorem pyRound_zero (d : Nat) : pyRound 0 d = 0 := by
  simp [pyRound, ratFloor]

/-- C8 (confirmed).  Whenever no ledger row matches the filters, the
summary is returned (no error): every total is zero and the cache-hit
rate is 0 — the `max(requests or 1, 1)` denominator prevents a division
by zero. -/
theorem summarize_empty_window_zero (db : List DbRow) (now : Nat)
    (api_key_hash : Option String) (days : Nat) (model_name : Option String)
    (h : db.filter (summaryRowMatches (now - days) api_key_hash model_name) = []) :
    getUsageSummary db now api_key_hash days model_name =
      { period_days := days,
        totals := { requests := 0, prompt_tokens := 0, completion_tokens := 0,
                    total_tokens := 0, cost_usd := 0, avg_latency_ms := 0,
                    cached_requests := 0, error_requests := 0, cache_hit_rate := 0 },
        by_model := [] } := by
  simp only [getUsageSummary, h]
  norm_num [sqlSumInt, sqlSumRatOpt, sqlAvgInt, byModelBreakdown, dedupKeepFirst,
    sortByKeyDesc, pyRound_zero]

/-- Witness for C8: an empty store matches nothing, and the summary is
the all-zero one. -/
theorem summarize_empty_window_zero_witness :
    ([] : List DbRow).filter (summaryRowMatches (30 - 30) none none) = [] ∧
    getUsageSummary [] 30 none 30 none =
      { period_days := 30,
        totals := { requests := 0, prompt_tokens := 0, completion_tokens := 0,
                    total_tokens := 0, cost_usd := 0, avg_latency_ms := 0,
                    cached_requests := 0, error_requests := 0, cache_hit_rate := 0 },
        by_model := [] } :=
  ⟨rfl, summarize_empty_window_zero [] 30 none 30 none rfl⟩

/-! ### C3 — ledger append / recent round trip -/

/-- Appending an element with a strictly larger key than everything in
the list puts it at the head of the descending sort. -/
theorem sortByKeyDesc_append_max {α : Type} (key : α → Nat) (l : List α) (r : α)
    (h : ∀ y ∈ l, key y < key r) :
    sortByKeyDesc key (l ++ [r]) = r :: sortByKeyDesc key l := by
  induction l with
  | nil => rfl
  | cons x xs ih =>
    have hx : key x < key r := h x (List.mem_cons_self x xs)
    have hxs : ∀ y ∈ xs, key y < key r := fun y hy => h y (List.mem_cons_of_mem x hy)
    simp only [List.cons_append, sortByKeyDesc, List.append_eq]
    rw [ih hxs]
    rw [insertByKeyDesc, if_neg (Nat.not_le.mpr hx)]

/-- C3 (corrected).  With logging enabled, appending a record whose
timestamp postdates the store and retrieving `recent(limit=1)` returns
exactly the row just inserted; model name, token counts, caller hash,
provider model, latency, status, cost and error message come back
verbatim, the cache-hit flag comes back as its 0/1 integer encoding,
and the metadata comes back as its JSON serialization — where an empty
metadata mapping is stored as NULL, identically to absent metadata, so
the metadata field does not survive unchanged in that case (see the
counterexample). -/
theorem usage_roundTrip_fields (gw : GatewaySettings) (db : List DbRow)
    (nextId now : Nat) (a : LogArgs) (mn : String)
    (hlog : gw.request_logging_enabled = true)
    (hmn : a.model_name = some mn)
    (hts : ∀ r ∈ db, r.timestamp < now) :
    getRecentRequests (logRequest gw db nextId now a) 1 none =
      [dbRowOfArgs nextId now mn a] ∧
    (dbRowOfArgs nextId now mn a).model_name = mn ∧
    (dbRowOfArgs nextId now mn a).prompt_tokens = a.prompt_tokens ∧
    (dbRowOfArgs nextId now mn a).completion_tokens = a.completion_tokens ∧
    (dbRowOfArgs nextId now mn a).total_tokens = a.total_tokens ∧
    (dbRowOfArgs nextId now mn a).api_key_hash = a.api_key_hash ∧
    (dbRowOfArgs nextId now mn a).provider_model = a.provider_model ∧
    (dbRowOfArgs nextId now mn a).latency_ms = a.latency_ms ∧
    (dbRowOfArgs nextId now mn a).status_code = a.status_code ∧
    (dbRowOfArgs nextId now mn a).cached = (if a.cached then 1 else 0) ∧
    (dbRowOfArgs nextId now mn a).cost_usd = a.cost_usd ∧
    (dbRowOfArgs nextId now mn a).error_message = a.error_message ∧
    (dbRowOfArgs nextId now mn a).request_metadata = encodeStoredMetadata a.request_metadata := by
  refine ⟨?_, rfl, rfl, rfl, rfl, rfl, rfl, rfl, rfl, rfl, rfl, rfl, rfl⟩
  have hlr : logRequest gw db nextId now a = db ++ [dbRowOfArgs nextId now mn a] := by
    simp [logRequest, hlog, hmn]
  rw [hlr]
  unfold getRecentRequests
  simp only [pyTruthyOptStr, Bool.false_eq_true, if_false]
  rw [sortByKeyDesc_append_max (fun r => r.timestamp) db (dbRowOfArgs nextId now mn a)
    (fun y hy => hts y hy)]
  rfl

/-- A fully populated record for the C3 witness. -/
def argsRich : LogArgs :=
  { model_name := some "m", prompt_tokens := 3, completion_tokens := 4,
    total_tokens := 7, cost_usd := some ((1 : Rat) / 2), latency_ms := 12,
    status_code := 200, cached := true, api_key_hash := some "h",
    provider_model := some "pm", error_message := some "e",
    request_metadata := some [("k", "v")] }

/-- Witness for C3 on an empty store. -/
theorem usage_roundTrip_fields_witness :
    gwEx.request_logging_enabled = true ∧
    argsRich.model_name = some "m" ∧
    (∀ r ∈ ([] : List DbRow), r.timestamp < 5) ∧
    (getRecentRequests (logRequest gwEx [] 1 5 argsRich) 1 none =
      [dbRowOfArgs 1 5 "m" argsRich] ∧
     (dbRowOfArgs 1 5 "m" argsRich).model_name = "m" ∧
     (dbRowOfArgs 1 5 "m" argsRich).prompt_tokens = argsRich.prompt_tokens ∧
     (dbRowOfArgs 1 5 "m" argsRich).completion_tokens = argsRich.completion_tokens ∧
     (dbRowOfArgs 1 5 "m" argsRich).total_tokens = argsRich.total_tokens ∧
     (dbRowOfArgs 1 5 "m" argsRich).api_key_hash = argsRich.api_key_hash ∧
     (dbRowOfArgs 1 5 "m" argsRich).provider_model = argsRich.provider_model ∧
     (dbRowOfArgs 1 5 "m" argsRich).latency_ms = argsRich.latency_ms ∧
     (dbRowOfArgs 1 5 "m" argsRich).status_code = argsRich.status_code ∧
     (dbRowOfArgs 1 5 "m" argsRich).cached = (if argsRich.cached then 1 else 0) ∧
     (dbRowOfArgs 1 5 "m" argsRich).cost_usd = argsRich.cost_usd ∧
     (dbRowOfArgs 1 5 "m" argsRich).error_message = argsRich.error_message ∧
     (dbRowOfArgs 1 5 "m" argsRich).request_metadata = encodeStoredMetadata argsRich.request_metadata) :=
  ⟨rfl, rfl, by simp,
   usage_roundTrip_fields gwEx [] 1 5 argsRich "m" rfl rfl (by simp)⟩

/-- A record carrying an explicitly empty metadata mapping. -/
def argsEmptyMeta : LogArgs := { model_name := some "m", request_metadata := some [] }

/-- The same record with absent metadata. -/
def argsNoMeta : LogArgs := { model_name := some "m", request_metadata := none }

/-- C3 counterexample.  Appending a record whose metadata is the empty
mapping produces the same ledger — and hence the same `recent(limit=1)`
result — as appending one with no metadata at all, although the two
appended records differ in their metadata field: the metadata does not
survive the round trip unchanged. -/
theorem usage_metadata_counterexample :
    logRequest gwEx [] 1 5 argsEmptyMeta = logRequest gwEx [] 1 5 argsNoMeta ∧
    argsEmptyMeta.request_metadata ≠ argsNoMeta.request_metadata ∧
    getRecentRequests (logRequest gwEx [] 1 5 argsEmptyMeta) 1 none =
      getRecentRequests (logRequest gwEx [] 1 5 argsNoMeta) 1 none := by
  refine ⟨by rfl, by decide, by rfl⟩

/-! ### C5 — unknown model on the chat route -/

/-- C5 (corrected).  For a request whose (non-empty) model name is not
in the catalog, the backend is never invoked and exactly one ledger row
is appended, in both modes.  In non-streaming mode the route returns the
claimed invalid-request error and the row carries status 400; in
streaming mode, however, the resolution failure is raised inside the SSE
generator, so it surfaces as a `stream_error` event on a 200 stream and
the row carries status 500, not an invalid-request status — the original
claim fails for streaming requests (see the counterexample). -/
theorem chat_unknown_model_outcomes (gw : GatewaySettings) (st : RouterState)
    (backendSingle : CompletionKwargs → Except String LiteLLMResponse)
    (backendStream : CompletionKwargs → Except String (List LiteLLMChunk))
    (costFn : LiteLLMResponse → Option Rat)
    (db : List DbRow) (nextId now : Nat) (latency_ms : Int) (api_key_hash : String)
    (p : ChatPayload) (name : String)
    (hlog : gw.request_logging_enabled = true)
    (hmsgs : p.messages ≠ [])
    (hmodel : p.model = some name)
    (hname : name ≠ "")
    (hlookup : lookupModel st name = none) :
    (p.stream = false →
      ((createChatCompletion gw st backendSingle backendStream costFn db nextId now
          latency_ms api_key_hash (some p)).result =
        .errorResponse 400 "invalid_request_error" "invalid_model"
          (modelNotFoundMessage (some name) (modelKeys st)) ∧
       (createChatCompletion gw st backendSingle backendStream costFn db nextId now
          latency_ms api_key_hash (some p)).backendCalls = 0 ∧
       ∃ row, (createChatCompletion gw st backendSingle backendStream costFn db nextId now
          latency_ms api_key_hash (some p)).ledger = db ++ [row] ∧
         row.status_code = 400 ∧ row.model_name = name ∧
         row.error_message = some (modelNotFoundMessage (some name) (modelKeys st)))) ∧
    (p.stream = true →
      ((createChatCompletion gw st backendSingle backendStream costFn db nextId now
          latency_ms api_key_hash (some p)).result =
        .sse [.streamError (modelNotFoundMessage (some name) (modelKeys st))] ∧
       (createChatCompletion gw st backendSingle backendStream costFn db nextId now
          latency_ms api_key_hash (some p)).backendCalls = 0 ∧
       ∃ row, (createChatCompletion gw st backendSingle backendStream costFn db nextId now
          latency_ms api_key_hash (some p)).ledger = db ++ [row] ∧
         row.status_code = 500 ∧ row.model_name = name ∧
         row.error_message = some (modelNotFoundMessage (some name) (modelKeys st)))) := by
  have hres : resolveModelIdentifier st p.model =
      .error (.modelNotFound (some name) (modelKeys st)) := by
    rw [hmodel]
    unfold resolveModelIdentifier effectiveRequested
    simp [pyTruthyOptStr, hname, hlookup]
  have hkw : ∀ (strm : Bool), buildCompletionKwargs gw st p.messages p.model p.temperature
      p.max_tokens strm p.extras =
      .error (.valueError (modelNotFoundMessage (some name) (modelKeys st))) := by
    intro strm
    unfold buildCompletionKwargs
    rw [hres]
  constructor
  · intro hs
    have hgen : generateChatCompletion gw st backendSingle backendStream costFn latency_ms
        p.messages p.model p.temperature p.max_tokens false p.extras =
        (.error (.valueError (modelNotFoundMessage (some name) (modelKeys st))), 0) := by
      unfold generateChatCompletion
      rw [hkw false]
    simp only [createChatCompletion, if_neg hmsgs, hs, Bool.false_eq_true, if_false, hgen,
      routerErrorMessage]
    refine ⟨by simp [routerErrorMessage], by simp, ?_⟩
    refine ⟨dbRowOfArgs nextId now name
      { model_name := some name, latency_ms := latency_ms, status_code := 400,
        api_key_hash := some api_key_hash,
        error_message := some (modelNotFoundMessage (some name) (modelKeys st)) }, ?_, rfl, rfl, rfl⟩
    simp [logErrorRequest, logRequest, hlog, hmodel, pyStrOrD, hname, routerErrorMessage]
  · intro hs
    have hgen : generateChatCompletion gw st backendSingle backendStream costFn latency_ms
        p.messages p.model p.temperature p.max_tokens true p.extras =
        (.error (.valueError (modelNotFoundMessage (some name) (modelKeys st))), 0) := by
      unfold generateChatCompletion
      rw [hkw true]
    simp only [createChatCompletion, if_neg hmsgs, hs, if_true, hgen, routerErrorMessage]
    refine ⟨by simp [routerErrorMessage], by simp, ?_⟩
    refine ⟨dbRowOfArgs nextId now name
      { model_name := some name, latency_ms := latency_ms, status_code := 500,
        api_key_hash := some api_key_hash,
        error_message := some (modelNotFoundMessage (some name) (modelKeys st)) }, ?_, rfl, rfl, rfl⟩
    simp [logErrorRequest, logRequest, hlog, hmodel, pyOrStr, pyStrOrD, pyTruthyOptStr, hname,
      routerErrorMessage]

/-- A non-streaming request for the unknown model `ghost`. -/
def pGhost : ChatPayload :=
  { messages := [{ role := "user", content := "hi" }], model := some "ghost" }

/-- A streaming request for the unknown model `ghost`. -/
def pStreamGhost : ChatPayload :=
  { messages := [{ role := "user", content := "hi" }], model := some "ghost", stream := true }

/-- A backend stub for single-shot mode; it is never reached in the C5
scenarios (the invocation counter stays at zero). -/
def noBackendSingle : CompletionKwargs → Except String LiteLLMResponse :=
  fun _ => .error "unavailable"

/-- A backend stub for streaming mode; never reached in the C5 scenarios. -/
def noBackendStream : CompletionKwargs → Except String (List LiteLLMChunk) :=
  fun _ => .error "unavailable"

/-- A cost-estimator stub. -/
def noCostFn : LiteLLMResponse → Option Rat := fun _ => none

/-- Witness for C5: the non-streaming `ghost` request against the
one-entry registry. -/
theorem chat_unknown_model_outcomes_witness :
    gwEx.request_logging_enabled = true ∧
    pGhost.messages ≠ [] ∧
    pGhost.model = some "ghost" ∧
    ("ghost" : String) ≠ "" ∧
    lookupModel exSt "ghost" = none ∧
    ((pGhost.stream = false →
      ((createChatCompletion gwEx exSt noBackendSingle noBackendStream noCostFn [] 1 5
          7 "h" (some pGhost)).result =
        .errorResponse 400 "invalid_request_error" "invalid_model"
          (modelNotFoundMessage (some "ghost") (modelKeys exSt)) ∧
       (createChatCompletion gwEx exSt noBackendSingle noBackendStream noCostFn [] 1 5
          7 "h" (some pGhost)).backendCalls = 0 ∧
       ∃ row, (createChatCompletion gwEx exSt noBackendSingle noBackendStream noCostFn [] 1 5
          7 "h" (some pGhost)).ledger = [] ++ [row] ∧
         row.status_code = 400 ∧ row.model_name = "ghost" ∧
         row.error_message = some (modelNotFoundMessage (some "ghost") (modelKeys exSt)))) ∧
     (pGhost.stream = true →
      ((createChatCompletion gwEx exSt noBackendSingle noBackendStream noCostFn [] 1 5
          7 "h" (some pGhost)).result =
        .sse [.streamError (modelNotFoundMessage (some "ghost") (modelKeys exSt))] ∧
       (createChatCompletion gwEx exSt noBackendSingle noBackendStream noCostFn [] 1 5
          7 "h" (some pGhost)).backendCalls = 0 ∧
       ∃ row, (createChatCompletion gwEx exSt noBackendSingle noBackendStream noCostFn [] 1 5
          7 "h" (some pGhost)).ledger = [] ++ [row] ∧
         row.status_code = 500 ∧ row.model_name = "ghost" ∧
         row.error_message = some (modelNotFoundMessage (some "ghost") (modelKeys exSt))))) :=
  ⟨rfl, by decide, rfl, by decide, by rfl,
   chat_unknown_model_outcomes gwEx exSt noBackendSingle noBackendStream noCostFn [] 1 5
     7 "h" pGhost "ghost" rfl (by decide) rfl (by decide) (by rfl)⟩

/-- C5 counterexample.  The streaming `ghost` request does not produce
an invalid-request-class error: the route answers with an SSE stream
whose single event is a `stream_error` payload, and the one ledger row
it writes carries status 500, not an invalid-request status. -/
theorem chat_unknown_model_stream_counterexample :
    (createChatCompletion gwEx exSt noBackendSingle noBackendStream noCostFn [] 1 5
        7 "h" (some pStreamGhost)).result =
      .sse [.streamError (modelNotFoundMessage (some "ghost") (modelKeys exSt))] ∧
    (createChatCompletion gwEx exSt noBackendSingle noBackendStream noCostFn [] 1 5
        7 "h" (some pStreamGhost)).backendCalls = 0 ∧
    ((createChatCompletion gwEx exSt noBackendSingle noBackendStream noCostFn [] 1 5
        7 "h" (some pStreamGhost)).ledger).map (fun r => r.status_code) = [500] :=
  ⟨rfl, rfl, rfl⟩

end LlmGateway
